import Mathlib

/-!
Shallow embedding of `robot_control_architecture_node.py` (SquidGameNode),
a ROS 2 node playing "Red Light, Green Light".

Modelling conventions:
- Python floats are modelled as `Rat` (the node does only comparisons,
  subtraction, addition and absolute values on them).
- The node's `self.state` is a Python string; it is modelled as `String`
  with the same literal values, so the `main_loop` dispatch (including its
  unknown-state fallthrough) is embedded faithfully.
- ROS clock times and durations are `Rat` values (seconds); each timer tick
  receives the current clock value `now` as an input.
- `random.choice([True, False])` becomes an input `coin : Bool`;
  `random.uniform(a, b)` becomes an input `dur : Rat` (the draw itself is
  environment nondeterminism).
- Side effects (logging, TTS, audio playback, topic publication, the
  blocking 180-degree rotation) are collected in an `Effect` list returned
  next to the new state.
- `self.game_result` is never assigned in `__init__`; it is modelled as
  `Option String`, `none` standing for "attribute not yet set".
- `self.game_start_time` / `self.light_end_time` start as `None`; they are
  `Option Rat` here.  Where the Python code uses them unguardedly
  (`green_light_state` / `red_light_state`), the model uses `getD 0`
  (resp. treats a missing deadline as not reached); those reads happen
  only after `init_state` / `start_*_light` in every reachable execution,
  where the options are `some`.
-/

/-- Bounding-box center position (`bbox.center.position`). -/
structure BBoxCenter where
  x : Rat
  y : Rat
deriving DecidableEq, Repr

/-- Bounding box of a detection (`det.bbox`). -/
structure BBox where
  center : BBoxCenter
  size_x : Rat
  size_y : Rat
deriving DecidableEq, Repr

/-- One hypothesis attached to a detection result (`result.hypothesis`). -/
structure ObjectHypothesis where
  class_id : String
deriving DecidableEq, Repr

/-- One entry of `det.results`. -/
structure DetResult where
  hypothesis : ObjectHypothesis
deriving DecidableEq, Repr

/-- One element of `msg.detections` (a `vision_msgs/Detection2D`). -/
structure Detection2D where
  results : List DetResult
  bbox : BBox
deriving DecidableEq, Repr

/-- Observable side effects emitted by the node's handlers. -/
inductive Effect where
  | logInfo (msg : String)
  | logError (msg : String)
  | speak (text : String)
  | sound (file : String)
  | publishState (st : String)
  | rotate180
deriving DecidableEq, Repr

/-- The mutable attributes of `SquidGameNode`, plus `timerActive`, which
models whether `self.timer` is still scheduled (`self.timer.cancel()`
in `game_over_state` sets it to `false`). -/
structure GameState where
  state : String
  time_limit : Rat
  elapsed_time : Rat
  game_start_time : Option Rat
  current_light_duration : Rat
  light_end_time : Option Rat
  movement_threshold : Rat
  size_y_finish_line : Rat
  player_reached_finish_line : Bool
  player_moved : Bool
  previous_detection : Option Detection2D
  current_detection : Option Detection2D
  random_interval_min : Rat
  random_interval_max : Rat
  game_result : Option String
  timerActive : Bool
deriving DecidableEq, Repr

/-- The attribute values established by `SquidGameNode.__init__`. -/
def initState : GameState where
  state := "INSTRUCTIONS"
  time_limit := 120
  elapsed_time := 0
  game_start_time := none
  current_light_duration := 0
  light_end_time := none
  movement_threshold := 10
  size_y_finish_line := 400
  player_reached_finish_line := false
  player_moved := false
  previous_detection := none
  current_detection := none
  random_interval_min := 4/5
  random_interval_max := 6/5
  game_result := none
  timerActive := true

/-- Model of `SquidGameNode.detect_movement`: four absolute deltas between the
previous and current bounding boxes; returns `true` iff any strictly
exceeds `movement_threshold` (logging the deltas when it does). -/
def detect_movement (s : GameState) (prev_det curr_det : Detection2D) : Bool :=
  let prev_bbox := prev_det.bbox
  let curr_bbox := curr_det.bbox
  let delta_x := |curr_bbox.center.x - prev_bbox.center.x|
  let delta_y := |curr_bbox.center.y - prev_bbox.center.y|
  let delta_size_x := |curr_bbox.size_x - prev_bbox.size_x|
  let delta_size_y := |curr_bbox.size_y - prev_bbox.size_y|
  if delta_x > s.movement_threshold ∨ delta_y > s.movement_threshold ∨
     delta_size_x > s.movement_threshold ∨ delta_size_y > s.movement_threshold then
    true
  else
    false

/-- The selection loop at the top of `detection_callback`: scan one
detection's `results`, updating the `(detection, max_size_y)` accumulator
when a result has `class_id == "15"` and the box is strictly taller than
the best so far. -/
def scanResults (det : Detection2D) (acc : Option Detection2D × Rat) :
    List DetResult → Option Detection2D × Rat
  | [] => acc
  | r :: rs =>
    let acc' :=
      if r.hypothesis.class_id = "15" ∧ det.bbox.size_y > acc.2 then
        (some det, det.bbox.size_y)
      else acc
    scanResults det acc' rs

/-- The full nested selection loop of `detection_callback`: the person
detection (`class_id == "15"`) with the largest `size_y`, first seen
winning ties; `none` when no result matches. -/
def selectPerson (dets : List Detection2D) : Option Detection2D :=
  (dets.foldl (fun acc det => scanResults det acc det.results) (none, 0)).1

/-- Model of `self.current_detection = detection` in `detection_callback`. -/
def callback_select_update (s : GameState) (detection : Detection2D) : GameState :=
  { s with current_detection := some detection }

/-- The finish-line check of `detection_callback`:
`if self.current_detection.bbox.size_y >= self.size_y_finish_line:
self.player_reached_finish_line = True`. -/
def callback_finish_update (s : GameState) (detection : Detection2D) : GameState :=
  if detection.bbox.size_y ≥ s.size_y_finish_line then
    { s with player_reached_finish_line := true }
  else s

/-- The red-light movement check of `detection_callback`: when in
`RED_LIGHT` and a previous detection exists, latch `player_moved` if
`detect_movement` fires. -/
def callback_movement_update (s : GameState) (detection : Detection2D) : GameState :=
  if s.state = "RED_LIGHT" then
    match s.previous_detection with
    | some prev =>
      if detect_movement s prev detection then
        { s with player_moved := true }
      else s
    | none => s
  else s

/-- Model of `SquidGameNode.detection_callback` (no clock access, no effects):
select the best person detection; if one exists, update
`current_detection`, latch `player_reached_finish_line` when tall enough,
compare against `previous_detection` during `RED_LIGHT` to latch
`player_moved`, and finally make the selection the new
`previous_detection` regardless of phase. -/
def detection_callback (s : GameState) (msg : List Detection2D) : GameState :=
  match selectPerson msg with
  | none => s
  | some detection =>
    let s1 := callback_select_update s detection
    let s2 := callback_finish_update s1 detection
    let s3 := callback_movement_update s2 detection
    { s3 with previous_detection := some detection }

/-- Model of `SquidGameNode.start_green_light`: enter `GREEN_LIGHT`, record the
drawn duration and the absolute deadline `now + dur`, play the cue and
publish the new state. -/
def start_green_light (s : GameState) (now dur : Rat) : GameState × List Effect :=
  ({ s with
      state := "GREEN_LIGHT"
      current_light_duration := dur
      light_end_time := some (now + dur) },
   [Effect.sound "green_light.mp3",
    Effect.logInfo "GREEN_LIGHT state",
    Effect.publishState "GREEN_LIGHT"])

/-- Model of `SquidGameNode.start_red_light`: enter `RED_LIGHT`, record the drawn
duration and deadline, clear `previous_detection` and `player_moved`,
play the cue and publish the new state. -/
def start_red_light (s : GameState) (now dur : Rat) : GameState × List Effect :=
  ({ s with
      state := "RED_LIGHT"
      current_light_duration := dur
      light_end_time := some (now + dur)
      previous_detection := none
      player_moved := false },
   [Effect.sound "red_light.mp3",
    Effect.logInfo "RED_LIGHT state",
    Effect.publishState "RED_LIGHT"])

/-- Model of `SquidGameNode.start_random_light`: after `GREEN_LIGHT` always red;
after `RED_LIGHT`, and from any other (initial) state, a coin flip
between green and red. -/
def start_random_light (s : GameState) (now : Rat) (coin : Bool) (dur : Rat) :
    GameState × List Effect :=
  if s.state = "GREEN_LIGHT" then
    start_red_light s now dur
  else if s.state = "RED_LIGHT" then
    if coin then start_green_light s now dur else start_red_light s now dur
  else
    if coin then start_green_light s now dur else start_red_light s now dur

/-- The spoken instruction script of `instructions_state`. -/
def instructionLines : List String :=
  ["Welcome to Red Light Green Light.",
   "The rules are simple.",
   "When you hear Green Light, you can move forward.",
   "When you hear Red Light, you must freeze.",
   "If you move during Red Light, you will be eliminated.",
   "Reach the finish line to win.",
   "You have 2 minutes to complete the game.",
   "Get ready!"]

/-- Model of `SquidGameNode.instructions_state`: speak the script, do the 180
rotation, move to `COUNTDOWN`. -/
def instructions_state (s : GameState) : GameState × List Effect :=
  ({ s with state := "COUNTDOWN" },
   instructionLines.map Effect.speak ++
     [Effect.rotate180,
      Effect.logInfo "Instructions completed, starting countdown."])

/-- Model of `SquidGameNode.countdown_state`: speak 3, 2, 1, Begin!, move to
`INIT`. -/
def countdown_state (s : GameState) : GameState × List Effect :=
  ({ s with state := "INIT" },
   [Effect.speak "3", Effect.speak "2", Effect.speak "1",
    Effect.speak "Begin!",
    Effect.logInfo "Countdown completed, starting game."])

/-- Model of `SquidGameNode.init_state`: stamp the game start time, zero the
elapsed time, and ask the scheduler for the first light. -/
def init_state (s : GameState) (now : Rat) (coin : Bool) (dur : Rat) :
    GameState × List Effect :=
  let s1 := { s with game_start_time := some now, elapsed_time := 0 }
  let (s2, eff) := start_random_light s1 now coin dur
  (s2, Effect.logInfo "Game Starting." :: eff)

/-- Model of `now >= self.light_end_time` (a missing deadline counts as not
reached; in the Python it is always set before this comparison runs). -/
def deadlineReached (now : Rat) : Option Rat → Bool
  | some te => decide (now ≥ te)
  | none => false

/-- Model of `SquidGameNode.green_light_state`: recompute elapsed time, then in
order check global timeout (lose), finish line (win), and the phase
deadline (ask the scheduler). -/
def green_light_state (s : GameState) (now : Rat) (coin : Bool) (dur : Rat) :
    GameState × List Effect :=
  let s1 := { s with elapsed_time := now - s.game_start_time.getD 0 }
  if s1.elapsed_time ≥ s1.time_limit then
    ({ s1 with state := "GAME_OVER", game_result := some "LOSE" },
     [Effect.speak "Time's up! Game Over!",
      Effect.logInfo "Time limit reached. Player loses."])
  else if s1.player_reached_finish_line then
    ({ s1 with state := "GAME_OVER", game_result := some "WIN" },
     [Effect.speak "Congratulations! You've won!",
      Effect.logInfo "Player reached finish line. Player wins!"])
  else if deadlineReached now s1.light_end_time then
    start_random_light s1 now coin dur
  else
    (s1, [])

/-- Model of `SquidGameNode.red_light_state`: recompute elapsed time, then in
order check global timeout (lose), the movement flag (rotate, lose), and
the phase deadline (ask the scheduler). -/
def red_light_state (s : GameState) (now : Rat) (coin : Bool) (dur : Rat) :
    GameState × List Effect :=
  let s1 := { s with elapsed_time := now - s.game_start_time.getD 0 }
  if s1.elapsed_time ≥ s1.time_limit then
    ({ s1 with state := "GAME_OVER", game_result := some "LOSE" },
     [Effect.speak "Time's up! Game Over!",
      Effect.logInfo "Time limit reached. Player loses."])
  else if s1.player_moved then
    ({ s1 with state := "GAME_OVER", game_result := some "LOSE" },
     [Effect.rotate180,
      Effect.sound "lose.mp3",
      Effect.speak "Movement detected! You're eliminated!",
      Effect.logInfo "Player moved during RED_LIGHT. Player loses."])
  else if deadlineReached now s1.light_end_time then
    start_random_light s1 now coin dur
  else
    (s1, [])

/-- Model of `SquidGameNode.game_over_state`: log the outcome, publish the final
state, and cancel the timer (`self.timer.cancel()`). -/
def game_over_state (s : GameState) : GameState × List Effect :=
  let eff :=
    if s.game_result = some "WIN" then
      [Effect.logInfo "Game Over: Player Wins!"]
    else
      [Effect.logInfo "Game Over: Player Loses."]
  ({ s with timerActive := false }, eff ++ [Effect.publishState "GAME_OVER"])

/-- Model of `SquidGameNode.main_loop`: one timer tick, dispatching on the state
string; an unknown state only logs an error. -/
def main_loop (s : GameState) (now : Rat) (coin : Bool) (dur : Rat) :
    GameState × List Effect :=
  if s.state = "INSTRUCTIONS" then instructions_state s
  else if s.state = "COUNTDOWN" then countdown_state s
  else if s.state = "INIT" then init_state s now coin dur
  else if s.state = "GREEN_LIGHT" then green_light_state s now coin dur
  else if s.state = "RED_LIGHT" then red_light_state s now coin dur
  else if s.state = "GAME_OVER" then game_over_state s
  else (s, [Effect.logError ("Unknown state: " ++ s.state)])

/-- An event the environment can deliver to the node: a timer tick (with
the clock value and the random draws consumed on that tick) or a
detection message. -/
inductive Event where
  | tick (now : Rat) (coin : Bool) (dur : Rat)
  | detect (msg : List Detection2D)
deriving Repr

/-- One event applied to the node's state: ticks fire only while the
timer has not been cancelled; detection callbacks fire regardless. -/
def applyEvent (s : GameState) : Event → GameState
  | Event.tick now coin dur =>
    if s.timerActive then (main_loop s now coin dur).1 else s
  | Event.detect msg => detection_callback s msg

/-- Run a sequence of events from a state. -/
def run (s : GameState) : List Event → GameState
  | [] => s
  | e :: es => run (applyEvent s e) es

/-- A state the node can reach from construction. -/
def Reachable (s : GameState) : Prop :=
  ∃ es : List Event, run initState es = s

/-- Returns `true` when a detection event in `e` carries at least one person
detection (the only situation in which `detection_callback` updates any
state). -/
def eventHasPerson : Event → Bool
  | Event.tick _ _ _ => false
  | Event.detect msg => (selectPerson msg).isSome

/-- A single-result person detection (`class_id = "15"`) used as concrete
test input. -/
def personDet (cx cy sx sy : Rat) : Detection2D where
  results := [{ hypothesis := { class_id := "15" } }]
  bbox := { center := { x := cx, y := cy }, size_x := sx, size_y := sy }

/-- A concrete `RED_LIGHT` state holding a stored previous detection. -/
def redWatchState : GameState :=
  { initState with
      state := "RED_LIGHT"
      game_start_time := some 0
      light_end_time := some 1
      previous_detection := some (personDet 100 100 50 80) }

/-- A concrete `GREEN_LIGHT` state whose finish-line flag is already set
while the global time limit expires on the same tick. -/
def greenDeadState : GameState :=
  { initState with
      state := "GREEN_LIGHT"
      game_start_time := some 0
      light_end_time := some 1
      player_reached_finish_line := true }

/-- A state carrying a phase string outside the closed transition table. -/
def limboState : GameState :=
  { initState with state := "LIMBO" }

/-- A concrete terminal state (as produced by a red-light timeout). -/
def gameOverWitState : GameState :=
  { initState with state := "GAME_OVER", game_result := some "LOSE" }

/-- A concrete event trace: two blocking setup ticks, the `INIT` tick
(coin false, so the first light is red), then a tick far past the time
limit. -/
def demoEvents : List Event :=
  [Event.tick 0 true 1, Event.tick 0 true 1, Event.tick 0 false 1,
   Event.tick 200 true 1]

/-! ### Helper lemmas shared by the claim theorems -/

theorem start_random_light_eq (s : GameState) (now : Rat) (coin : Bool) (dur : Rat) :
    start_random_light s now coin dur = start_green_light s now dur ∨
    start_random_light s now coin dur = start_red_light s now dur := by
  unfold start_random_light
  cases coin <;> split_ifs <;> simp

theorem detect_movement_congr (s t : GameState) (prev curr : Detection2D)
    (h : s.movement_threshold = t.movement_threshold) :
    detect_movement s prev curr = detect_movement t prev curr := by
  unfold detect_movement
  rw [h]

theorem callback_finish_update_cases (s : GameState) (d : Detection2D) :
    callback_finish_update s d = s ∨
    callback_finish_update s d = { s with player_reached_finish_line := true } := by
  unfold callback_finish_update
  split_ifs
  · exact Or.inr rfl
  · exact Or.inl rfl

theorem callback_finish_update_state (s : GameState) (d : Detection2D) :
    (callback_finish_update s d).state = s.state := by
  rcases callback_finish_update_cases s d with h | h <;> rw [h]

theorem callback_finish_update_player_moved (s : GameState) (d : Detection2D) :
    (callback_finish_update s d).player_moved = s.player_moved := by
  rcases callback_finish_update_cases s d with h | h <;> rw [h]

theorem callback_finish_update_previous (s : GameState) (d : Detection2D) :
    (callback_finish_update s d).previous_detection = s.previous_detection := by
  rcases callback_finish_update_cases s d with h | h <;> rw [h]

theorem callback_finish_update_threshold (s : GameState) (d : Detection2D) :
    (callback_finish_update s d).movement_threshold = s.movement_threshold := by
  rcases callback_finish_update_cases s d with h | h <;> rw [h]

theorem callback_finish_update_game_result (s : GameState) (d : Detection2D) :
    (callback_finish_update s d).game_result = s.game_result := by
  rcases callback_finish_update_cases s d with h | h <;> rw [h]

theorem callback_finish_update_timerActive (s : GameState) (d : Detection2D) :
    (callback_finish_update s d).timerActive = s.timerActive := by
  rcases callback_finish_update_cases s d with h | h <;> rw [h]

theorem callback_finish_update_flag_true (s : GameState) (d : Detection2D)
    (h : s.player_reached_finish_line = true) :
    (callback_finish_update s d).player_reached_finish_line = true := by
  rcases callback_finish_update_cases s d with h2 | h2 <;> rw [h2]
  exact h

theorem callback_finish_update_latches (s : GameState) (d : Detection2D)
    (h : d.bbox.size_y ≥ s.size_y_finish_line) :
    (callback_finish_update s d).player_reached_finish_line = true := by
  unfold callback_finish_update
  rw [if_pos h]

theorem callback_movement_update_cases (s : GameState) (d : Detection2D) :
    callback_movement_update s d = s ∨
    callback_movement_update s d = { s with player_moved := true } := by
  unfold callback_movement_update
  split_ifs
  · cases s.previous_detection with
    | none => exact Or.inl rfl
    | some prev =>
      dsimp only
      split_ifs
      · exact Or.inr rfl
      · exact Or.inl rfl
  · exact Or.inl rfl

theorem callback_movement_update_state (s : GameState) (d : Detection2D) :
    (callback_movement_update s d).state = s.state := by
  rcases callback_movement_update_cases s d with h | h <;> rw [h]

theorem callback_movement_update_previous (s : GameState) (d : Detection2D) :
    (callback_movement_update s d).previous_detection = s.previous_detection := by
  rcases callback_movement_update_cases s d with h | h <;> rw [h]

theorem callback_movement_update_finish_flag (s : GameState) (d : Detection2D) :
    (callback_movement_update s d).player_reached_finish_line
      = s.player_reached_finish_line := by
  rcases callback_movement_update_cases s d with h | h <;> rw [h]

theorem callback_movement_update_game_result (s : GameState) (d : Detection2D) :
    (callback_movement_update s d).game_result = s.game_result := by
  rcases callback_movement_update_cases s d with h | h <;> rw [h]

theorem callback_movement_update_timerActive (s : GameState) (d : Detection2D) :
    (callback_movement_update s d).timerActive = s.timerActive := by
  rcases callback_movement_update_cases s d with h | h <;> rw [h]

theorem callback_movement_update_player_moved (s : GameState) (d prev : Detection2D)
    (hst : s.state = "RED_LIGHT") (hprev : s.previous_detection = some prev) :
    (callback_movement_update s d).player_moved
      = (s.player_moved || detect_movement s prev d) := by
  unfold callback_movement_update
  rw [hst, hprev, if_pos rfl]
  dsimp only
  cases hdm : detect_movement s prev d <;> simp [hdm]

theorem detection_callback_none (s : GameState) (msg : List Detection2D)
    (h : selectPerson msg = none) : detection_callback s msg = s := by
  unfold detection_callback
  rw [h]

theorem detection_callback_state (s : GameState) (msg : List Detection2D) :
    (detection_callback s msg).state = s.state := by
  unfold detection_callback
  cases selectPerson msg with
  | none => rfl
  | some d =>
    dsimp only
    rw [callback_movement_update_state, callback_finish_update_state]
    rfl

theorem detection_callback_game_result (s : GameState) (msg : List Detection2D) :
    (detection_callback s msg).game_result = s.game_result := by
  unfold detection_callback
  cases selectPerson msg with
  | none => rfl
  | some d =>
    dsimp only
    rw [callback_movement_update_game_result, callback_finish_update_game_result]
    rfl

theorem detection_callback_timerActive (s : GameState) (msg : List Detection2D) :
    (detection_callback s msg).timerActive = s.timerActive := by
  unfold detection_callback
  cases selectPerson msg with
  | none => rfl
  | some d =>
    dsimp only
    rw [callback_movement_update_timerActive, callback_finish_update_timerActive]
    rfl

theorem detection_callback_prev_some (s : GameState) (msg : List Detection2D)
    (curr : Detection2D) (h : selectPerson msg = some curr) :
    (detection_callback s msg).previous_detection = some curr := by
  unfold detection_callback
  rw [h]

theorem detection_callback_player_moved_eq (s : GameState) (msg : List Detection2D)
    (prev curr : Detection2D) (hsel : selectPerson msg = some curr)
    (hst : s.state = "RED_LIGHT") (hprev : s.previous_detection = some prev) :
    (detection_callback s msg).player_moved =
      (s.player_moved || detect_movement s prev curr) := by
  unfold detection_callback
  rw [hsel]
  dsimp only
  rw [callback_movement_update_player_moved _ curr prev
        (by rw [callback_finish_update_state]; exact hst)
        (by rw [callback_finish_update_previous]; exact hprev),
      callback_finish_update_player_moved,
      detect_movement_congr _ s prev curr (by rw [callback_finish_update_threshold]; rfl)]
  rfl

/-! ### Claim theorems -/

/-- C1: `start_random_light` is deterministic out of `GREEN_LIGHT` (always
`RED_LIGHT`), and out of `RED_LIGHT` or `INIT` both `GREEN_LIGHT` (coin
true) and `RED_LIGHT` (coin false) are reached. -/
theorem start_random_light_phase (s : GameState) (now dur : Rat) :
    (s.state = "GREEN_LIGHT" →
      ∀ coin : Bool, ((start_random_light s now coin dur).1).state = "RED_LIGHT")
  ∧ (s.state = "RED_LIGHT" →
      ((start_random_light s now true dur).1).state = "GREEN_LIGHT"
    ∧ ((start_random_light s now false dur).1).state = "RED_LIGHT")
  ∧ (s.state = "INIT" →
      ((start_random_light s now true dur).1).state = "GREEN_LIGHT"
    ∧ ((start_random_light s now false dur).1).state = "RED_LIGHT") := by
  refine ⟨?_, ?_, ?_⟩ <;> intro h
  · intro coin
    simp [start_random_light, h, start_red_light]
  · exact ⟨by simp [start_random_light, h, start_green_light],
          by simp [start_random_light, h, start_red_light]⟩
  · exact ⟨by simp [start_random_light, h, start_green_light],
          by simp [start_random_light, h, start_red_light]⟩

/-- Witness for C1 at concrete states. -/
theorem start_random_light_phase_witness :
    ((start_random_light { initState with state := "GREEN_LIGHT" } 0 false 1).1).state = "RED_LIGHT"
  ∧ ((start_random_light { initState with state := "RED_LIGHT" } 0 true 1).1).state = "GREEN_LIGHT"
  ∧ ((start_random_light { initState with state := "INIT" } 0 false 1).1).state = "RED_LIGHT" :=
  ⟨(start_random_light_phase { initState with state := "GREEN_LIGHT" } 0 1).1 rfl false,
   ((start_random_light_phase { initState with state := "RED_LIGHT" } 0 1).2.1 rfl).1,
   ((start_random_light_phase { initState with state := "INIT" } 0 1).2.2 rfl).2⟩

/-- C5: `start_red_light` always clears the stored previous detection and
the movement flag, whatever their prior values. -/
theorem start_red_light_clears (s : GameState) (now dur : Rat) :
    ((start_red_light s now dur).1).previous_detection = none
  ∧ ((start_red_light s now dur).1).player_moved = false :=
  ⟨rfl, rfl⟩

theorem start_random_light_elapsed (s : GameState) (now : Rat) (coin : Bool) (dur : Rat) :
    (start_random_light s now coin dur).1.elapsed_time = s.elapsed_time := by
  rcases start_random_light_eq s now coin dur with h | h <;> rw [h] <;> rfl

theorem start_random_light_game_result (s : GameState) (now : Rat) (coin : Bool) (dur : Rat) :
    (start_random_light s now coin dur).1.game_result = s.game_result := by
  rcases start_random_light_eq s now coin dur with h | h <;> rw [h] <;> rfl

theorem start_random_light_finish_flag (s : GameState) (now : Rat) (coin : Bool) (dur : Rat) :
    (start_random_light s now coin dur).1.player_reached_finish_line
      = s.player_reached_finish_line := by
  rcases start_random_light_eq s now coin dur with h | h <;> rw [h] <;> rfl

theorem start_random_light_timerActive (s : GameState) (now : Rat) (coin : Bool) (dur : Rat) :
    (start_random_light s now coin dur).1.timerActive = s.timerActive := by
  rcases start_random_light_eq s now coin dur with h | h <;> rw [h] <;> rfl

theorem start_random_light_state_cases (s : GameState) (now : Rat) (coin : Bool) (dur : Rat) :
    (start_random_light s now coin dur).1.state = "GREEN_LIGHT" ∨
    (start_random_light s now coin dur).1.state = "RED_LIGHT" := by
  rcases start_random_light_eq s now coin dur with h | h <;> rw [h]
  · exact Or.inl rfl
  · exact Or.inr rfl

theorem start_random_light_prev_cases (s : GameState) (now : Rat) (coin : Bool) (dur : Rat) :
    (start_random_light s now coin dur).1.previous_detection = s.previous_detection ∨
    (start_random_light s now coin dur).1.previous_detection = none := by
  rcases start_random_light_eq s now coin dur with h | h <;> rw [h]
  · exact Or.inl rfl
  · exact Or.inr rfl

/-- C2: while in `RED_LIGHT` with a stored previous detection,
`detect_movement` fires iff one of the four absolute deltas strictly
exceeds the threshold, and `detection_callback` ORs that result into the
movement flag (leaving it unchanged when no delta exceeds). -/
theorem movement_flag_iff (s : GameState) (prev curr : Detection2D) (msg : List Detection2D) :
    (detect_movement s prev curr = true ↔
      (|curr.bbox.center.x - prev.bbox.center.x| > s.movement_threshold ∨
       |curr.bbox.center.y - prev.bbox.center.y| > s.movement_threshold ∨
       |curr.bbox.size_x - prev.bbox.size_x| > s.movement_threshold ∨
       |curr.bbox.size_y - prev.bbox.size_y| > s.movement_threshold))
  ∧ (s.state = "RED_LIGHT" → s.previous_detection = some prev →
      selectPerson msg = some curr →
      (detection_callback s msg).player_moved =
        (s.player_moved || detect_movement s prev curr)) := by
  constructor
  · unfold detect_movement
    dsimp only
    split_ifs with h <;> simp [h]
  · intro hst hprev hsel
    exact detection_callback_player_moved_eq s msg prev curr hsel hst hprev

/-- Witness for C2: a 15-pixel height change against a 10-pixel threshold. -/
theorem movement_flag_iff_witness :
    (detection_callback redWatchState [personDet 100 100 50 95]).player_moved =
      (redWatchState.player_moved ||
        detect_movement redWatchState (personDet 100 100 50 80) (personDet 100 100 50 95)) :=
  (movement_flag_iff redWatchState (personDet 100 100 50 80) (personDet 100 100 50 95)
      [personDet 100 100 50 95]).2 rfl rfl (by decide)

/-- C8: comparing a detection against itself gives four zero deltas and
never flags movement (for any non-negative threshold); re-ingesting the
same detection in `RED_LIGHT` leaves the movement flag unchanged. -/
theorem detect_movement_self (s : GameState) (d : Detection2D) (msg : List Detection2D)
    (hthr : 0 ≤ s.movement_threshold) :
    |d.bbox.center.x - d.bbox.center.x| = 0
  ∧ |d.bbox.center.y - d.bbox.center.y| = 0
  ∧ |d.bbox.size_x - d.bbox.size_x| = 0
  ∧ |d.bbox.size_y - d.bbox.size_y| = 0
  ∧ detect_movement s d d = false
  ∧ (s.state = "RED_LIGHT" → s.previous_detection = some d →
      selectPerson msg = some d →
      (detection_callback s msg).player_moved = s.player_moved) := by
  have hz : ∀ a : Rat, |a - a| = 0 := fun a => by simp
  have hnl : ¬(s.movement_threshold < 0) := not_lt.mpr hthr
  have hdm : detect_movement s d d = false := by
    unfold detect_movement
    dsimp only
    simp only [hz]
    simp [hnl]
  refine ⟨hz _, hz _, hz _, hz _, hdm, ?_⟩
  intro hst hprev hsel
  rw [detection_callback_player_moved_eq s msg d d hsel hst hprev, hdm, Bool.or_false]

/-- Witness for C8 at a concrete detection and the default threshold 10. -/
theorem detect_movement_self_witness :
    detect_movement redWatchState (personDet 100 100 50 80) (personDet 100 100 50 80) = false :=
  (detect_movement_self redWatchState (personDet 100 100 50 80)
      [personDet 100 100 50 80] (by decide)).2.2.2.2.1

theorem main_loop_green (s : GameState) (now dur : Rat) (coin : Bool)
    (hst : s.state = "GREEN_LIGHT") :
    main_loop s now coin dur = green_light_state s now coin dur := by
  unfold main_loop
  rw [hst]
  simp

theorem main_loop_red (s : GameState) (now dur : Rat) (coin : Bool)
    (hst : s.state = "RED_LIGHT") :
    main_loop s now coin dur = red_light_state s now coin dur := by
  unfold main_loop
  rw [hst]
  simp

/-- C3: on a `GREEN_LIGHT` or `RED_LIGHT` tick, elapsed time is recomputed
first, then the checks short-circuit in the order global timeout (lose),
phase-specific condition (finish line wins in green, movement loses in
red), phase deadline (scheduler); timeout takes priority over a
simultaneous finish-line or movement event. -/
theorem tick_check_order (s : GameState) (g now dur : Rat) (coin : Bool)
    (hg : s.game_start_time = some g) :
    (s.state = "GREEN_LIGHT" →
      ((main_loop s now coin dur).1.elapsed_time = now - g
     ∧ (now - g ≥ s.time_limit →
          (main_loop s now coin dur).1.state = "GAME_OVER"
        ∧ (main_loop s now coin dur).1.game_result = some "LOSE")
     ∧ (¬(now - g ≥ s.time_limit) → s.player_reached_finish_line = true →
          (main_loop s now coin dur).1.state = "GAME_OVER"
        ∧ (main_loop s now coin dur).1.game_result = some "WIN")
     ∧ (¬(now - g ≥ s.time_limit) → s.player_reached_finish_line = false →
          deadlineReached now s.light_end_time = true →
          main_loop s now coin dur =
            start_random_light { s with elapsed_time := now - g } now coin dur)
     ∧ (¬(now - g ≥ s.time_limit) → s.player_reached_finish_line = false →
          deadlineReached now s.light_end_time = false →
          main_loop s now coin dur = ({ s with elapsed_time := now - g }, []))))
  ∧ (s.state = "RED_LIGHT" →
      ((main_loop s now coin dur).1.elapsed_time = now - g
     ∧ (now - g ≥ s.time_limit →
          (main_loop s now coin dur).1.state = "GAME_OVER"
        ∧ (main_loop s now coin dur).1.game_result = some "LOSE")
     ∧ (¬(now - g ≥ s.time_limit) → s.player_moved = true →
          (main_loop s now coin dur).1.state = "GAME_OVER"
        ∧ (main_loop s now coin dur).1.game_result = some "LOSE")
     ∧ (¬(now - g ≥ s.time_limit) → s.player_moved = false →
          deadlineReached now s.light_end_time = true →
          main_loop s now coin dur =
            start_random_light { s with elapsed_time := now - g } now coin dur)
     ∧ (¬(now - g ≥ s.time_limit) → s.player_moved = false →
          deadlineReached now s.light_end_time = false →
          main_loop s now coin dur = ({ s with elapsed_time := now - g }, [])))) := by
  constructor
  · intro hst
    rw [main_loop_green s now dur coin hst]
    unfold green_light_state
    rw [hg]
    dsimp only [Option.getD]
    refine ⟨?_, ?_, ?_, ?_, ?_⟩
    · split_ifs <;> first | rfl | (rw [start_random_light_elapsed])
    · intro htime
      rw [if_pos htime]
      exact ⟨rfl, rfl⟩
    · intro htime hfin
      rw [if_neg htime, if_pos hfin]
      exact ⟨rfl, rfl⟩
    · intro htime hfin hdl
      rw [if_neg htime, if_neg (by rw [hfin]; exact Bool.false_ne_true), if_pos hdl]
    · intro htime hfin hdl
      rw [if_neg htime, if_neg (by rw [hfin]; exact Bool.false_ne_true),
          if_neg (by rw [hdl]; exact Bool.false_ne_true)]
  · intro hst
    rw [main_loop_red s now dur coin hst]
    unfold red_light_state
    rw [hg]
    dsimp only [Option.getD]
    refine ⟨?_, ?_, ?_, ?_, ?_⟩
    · split_ifs <;> first | rfl | (rw [start_random_light_elapsed])
    · intro htime
      rw [if_pos htime]
      exact ⟨rfl, rfl⟩
    · intro htime hmv
      rw [if_neg htime, if_pos hmv]
      exact ⟨rfl, rfl⟩
    · intro htime hmv hdl
      rw [if_neg htime, if_neg (by rw [hmv]; exact Bool.false_ne_true), if_pos hdl]
    · intro htime hmv hdl
      rw [if_neg htime, if_neg (by rw [hmv]; exact Bool.false_ne_true),
          if_neg (by rw [hdl]; exact Bool.false_ne_true)]

unseal Rat.add Rat.sub in
/-- Witness for C3: with the finish-line flag already set, a tick at the
very moment the time limit expires still loses by timeout. -/
theorem tick_check_order_witness :
    (main_loop greenDeadState 120 true 1).1.state = "GAME_OVER"
  ∧ (main_loop greenDeadState 120 true 1).1.game_result = some "LOSE" :=
  ((tick_check_order greenDeadState 0 120 1 true rfl).1 rfl).2.1 (by decide)

theorem main_loop_game_over_eq (s : GameState) (now dur : Rat) (coin : Bool)
    (hst : s.state = "GAME_OVER") :
    main_loop s now coin dur = game_over_state s := by
  unfold main_loop
  rw [hst]
  simp

theorem init_state_fst (s : GameState) (now : Rat) (coin : Bool) (dur : Rat) :
    (init_state s now coin dur).1 =
      (start_random_light
        { s with game_start_time := some now, elapsed_time := 0 } now coin dur).1 := by
  unfold init_state
  dsimp only

theorem applyEvent_game_over (s : GameState) (e : Event) (h : s.state = "GAME_OVER") :
    (applyEvent s e).state = "GAME_OVER" := by
  cases e with
  | tick now coin dur =>
    unfold applyEvent
    dsimp only
    split_ifs
    · rw [main_loop_game_over_eq s now dur coin h]
      exact h
    · exact h
  | detect msg =>
    unfold applyEvent
    dsimp only
    rw [detection_callback_state]
    exact h

/-- C4: `GAME_OVER` is terminal — no tick and no detection event ever
changes the phase away from it, over any event sequence. -/
theorem game_over_terminal (s : GameState) (es : List Event)
    (h : s.state = "GAME_OVER") : (run s es).state = "GAME_OVER" := by
  induction es generalizing s with
  | nil => exact h
  | cons e es ih => exact ih _ (applyEvent_game_over s e h)

/-- Witness for C4: a tick and a detection applied to a terminal state. -/
theorem game_over_terminal_witness :
    (run gameOverWitState
      [Event.tick 0 true 1, Event.detect [personDet 1 2 3 4]]).state = "GAME_OVER" :=
  game_over_terminal gameOverWitState
    [Event.tick 0 true 1, Event.detect [personDet 1 2 3 4]] rfl

theorem detection_callback_flag_true (s : GameState) (msg : List Detection2D)
    (h : s.player_reached_finish_line = true) :
    (detection_callback s msg).player_reached_finish_line = true := by
  unfold detection_callback
  cases hsel : selectPerson msg with
  | none => exact h
  | some d =>
    dsimp only
    rw [callback_movement_update_finish_flag]
    exact callback_finish_update_flag_true _ d h

theorem green_light_state_finish_flag (s : GameState) (now : Rat) (coin : Bool) (dur : Rat) :
    (green_light_state s now coin dur).1.player_reached_finish_line
      = s.player_reached_finish_line := by
  unfold green_light_state
  dsimp only
  split_ifs <;> first | rfl | rw [start_random_light_finish_flag]

theorem red_light_state_finish_flag (s : GameState) (now : Rat) (coin : Bool) (dur : Rat) :
    (red_light_state s now coin dur).1.player_reached_finish_line
      = s.player_reached_finish_line := by
  unfold red_light_state
  dsimp only
  split_ifs <;> first | rfl | rw [start_random_light_finish_flag]

theorem main_loop_finish_flag (s : GameState) (now : Rat) (coin : Bool) (dur : Rat) :
    (main_loop s now coin dur).1.player_reached_finish_line
      = s.player_reached_finish_line := by
  unfold main_loop
  split_ifs
  · rfl
  · rfl
  · rw [init_state_fst, start_random_light_finish_flag]
  · rw [green_light_state_finish_flag]
  · rw [red_light_state_finish_flag]
  · rfl
  · rfl

/-- C6: a selected person detection at least as tall as the finish-line
threshold latches `player_reached_finish_line`, and no tick or detection
event ever clears the flag again. -/
theorem finish_flag_latch_sticky :
    (∀ (s : GameState) (msg : List Detection2D) (curr : Detection2D),
       selectPerson msg = some curr → curr.bbox.size_y ≥ s.size_y_finish_line →
       (detection_callback s msg).player_reached_finish_line = true)
  ∧ (∀ (s : GameState) (es : List Event),
       s.player_reached_finish_line = true →
       (run s es).player_reached_finish_line = true) := by
  constructor
  · intro s msg curr hsel hge
    unfold detection_callback
    rw [hsel]
    dsimp only
    rw [callback_movement_update_finish_flag]
    exact callback_finish_update_latches _ curr hge
  · have hstep : ∀ (s : GameState) (e : Event), s.player_reached_finish_line = true →
        (applyEvent s e).player_reached_finish_line = true := by
      intro s e h
      cases e with
      | tick now coin dur =>
        unfold applyEvent
        dsimp only
        split_ifs
        · rw [main_loop_finish_flag]
          exact h
        · exact h
      | detect msg =>
        unfold applyEvent
        dsimp only
        exact detection_callback_flag_true s msg h
    intro s es h
    induction es generalizing s with
    | nil => exact h
    | cons e es ih => exact ih _ (hstep s e h)

/-- Witness for C6: a 450-tall detection against the 400 threshold. -/
theorem finish_flag_latch_sticky_witness :
    (detection_callback initState
      [personDet 100 100 50 450]).player_reached_finish_line = true :=
  finish_flag_latch_sticky.1 initState [personDet 100 100 50 450]
    (personDet 100 100 50 450) (by decide) (by decide)

theorem start_random_light_prev_none (s : GameState) (now : Rat) (coin : Bool) (dur : Rat)
    (h : s.previous_detection = none) :
    (start_random_light s now coin dur).1.previous_detection = none := by
  rcases start_random_light_prev_cases s now coin dur with h2 | h2
  · rw [h2]
    exact h
  · exact h2

theorem green_light_state_prev_none (s : GameState) (now : Rat) (coin : Bool) (dur : Rat)
    (h : s.previous_detection = none) :
    (green_light_state s now coin dur).1.previous_detection = none := by
  unfold green_light_state
  dsimp only
  split_ifs
  · exact h
  · exact h
  · exact start_random_light_prev_none _ now coin dur h
  · exact h

theorem red_light_state_prev_none (s : GameState) (now : Rat) (coin : Bool) (dur : Rat)
    (h : s.previous_detection = none) :
    (red_light_state s now coin dur).1.previous_detection = none := by
  unfold red_light_state
  dsimp only
  split_ifs
  · exact h
  · exact h
  · exact start_random_light_prev_none _ now coin dur h
  · exact h

theorem main_loop_prev_none (s : GameState) (now : Rat) (coin : Bool) (dur : Rat)
    (h : s.previous_detection = none) :
    (main_loop s now coin dur).1.previous_detection = none := by
  unfold main_loop
  split_ifs
  · exact h
  · exact h
  · rw [init_state_fst]
    exact start_random_light_prev_none _ now coin dur h
  · exact green_light_state_prev_none s now coin dur h
  · exact red_light_state_prev_none s now coin dur h
  · exact h
  · exact h

/-- C7 counterexample: a person detection ingested while still in
`INSTRUCTIONS` (reachable directly from construction) already stores a
non-null `previous_detection` outside `RED_LIGHT`, because
`detection_callback` updates the baseline regardless of phase. -/
theorem previous_detection_counterexample :
    Reachable (detection_callback initState [personDet 1 2 3 4])
  ∧ (detection_callback initState [personDet 1 2 3 4]).previous_detection
      = some (personDet 1 2 3 4)
  ∧ (detection_callback initState [personDet 1 2 3 4]).state = "INSTRUCTIONS" :=
  ⟨⟨[Event.detect [personDet 1 2 3 4]], rfl⟩, by decide, by decide⟩

/-- C7 amended: every `RED_LIGHT` entry clears `previous_detection`, it
stays null until some person-bearing frame arrives (ticks never set it),
and any person-bearing frame sets it — in whatever phase the node is. -/
theorem previous_detection_lifecycle :
    (∀ (s : GameState) (now dur : Rat),
       ((start_red_light s now dur).1).previous_detection = none)
  ∧ (∀ es : List Event, (∀ e ∈ es, eventHasPerson e = false) →
       (run initState es).previous_detection = none)
  ∧ (∀ (s : GameState) (msg : List Detection2D) (curr : Detection2D),
       selectPerson msg = some curr →
       (detection_callback s msg).previous_detection = some curr) := by
  refine ⟨fun s now dur => rfl, ?_,
    fun s msg curr h => detection_callback_prev_some s msg curr h⟩
  have hgen : ∀ (es : List Event) (s : GameState), s.previous_detection = none →
      (∀ e ∈ es, eventHasPerson e = false) →
      (run s es).previous_detection = none := by
    intro es
    induction es with
    | nil =>
      intro s h _
      exact h
    | cons e es ih =>
      intro s h hall
      have he : eventHasPerson e = false := hall e (List.mem_cons_self e es)
      have hstep : (applyEvent s e).previous_detection = none := by
        cases e with
        | tick now coin dur =>
          unfold applyEvent
          dsimp only
          split_ifs
          · exact main_loop_prev_none s now coin dur h
          · exact h
        | detect msg =>
          unfold applyEvent
          dsimp only
          cases hsel : selectPerson msg with
          | some d =>
            exfalso
            unfold eventHasPerson at he
            dsimp only at he
            rw [hsel] at he
            simp at he
          | none =>
            rw [detection_callback_none s msg hsel]
            exact h
      exact ih _ hstep (fun e' he' => hall e' (List.mem_cons_of_mem e he'))
  intro es hall
  exact hgen es initState rfl hall

/-- Witness for C7's amended claim: one person-free tick from
construction leaves the baseline null. -/
theorem previous_detection_lifecycle_witness :
    (run initState [Event.tick 0 true 1]).previous_detection = none :=
  previous_detection_lifecycle.2.1 [Event.tick 0 true 1] (by decide)

/-- C9 counterexample: ticking the out-of-table state "LIMBO" only logs
an error; all state (timer included) is unchanged and further ticks keep
running against the same unknown state — the node does not stop. -/
theorem unknown_state_counterexample :
    (main_loop limboState 0 true 1).1 = limboState
  ∧ (main_loop limboState 0 true 1).2 = [Effect.logError "Unknown state: LIMBO"]
  ∧ limboState.timerActive = true
  ∧ run limboState [Event.tick 0 true 1, Event.tick 1 true 1] = limboState :=
  ⟨rfl, rfl, rfl, rfl⟩

/-- C9 amended: on a phase value outside the closed set, `main_loop` logs
an error message naming the state and changes nothing: the tick is a
no-op, the timer stays scheduled, and the loop keeps ticking. -/
theorem unknown_state_not_fatal (s : GameState) (now dur : Rat) (coin : Bool)
    (h1 : s.state ≠ "INSTRUCTIONS") (h2 : s.state ≠ "COUNTDOWN")
    (h3 : s.state ≠ "INIT") (h4 : s.state ≠ "GREEN_LIGHT")
    (h5 : s.state ≠ "RED_LIGHT") (h6 : s.state ≠ "GAME_OVER") :
    main_loop s now coin dur
      = (s, [Effect.logError ("Unknown state: " ++ s.state)]) := by
  unfold main_loop
  rw [if_neg h1, if_neg h2, if_neg h3, if_neg h4, if_neg h5, if_neg h6]

/-- Witness for C9's amended claim at the concrete state "LIMBO". -/
theorem unknown_state_not_fatal_witness :
    main_loop limboState 0 true 1
      = (limboState, [Effect.logError ("Unknown state: " ++ limboState.state)]) :=
  unknown_state_not_fatal limboState 0 1 true (by decide) (by decide) (by decide)
    (by decide) (by decide) (by decide)

theorem start_random_light_state_ne (s : GameState) (now : Rat) (coin : Bool) (dur : Rat) :
    (start_random_light s now coin dur).1.state ≠ "GAME_OVER" := by
  rcases start_random_light_state_cases s now coin dur with h | h <;> rw [h] <;> decide

theorem green_light_state_go_cases (s : GameState) (now dur : Rat) (coin : Bool) :
    ((green_light_state s now coin dur).1.game_result = s.game_result
      ∧ ((green_light_state s now coin dur).1.state = "GAME_OVER" → s.state = "GAME_OVER"))
  ∨ ((green_light_state s now coin dur).1.state = "GAME_OVER"
      ∧ ((green_light_state s now coin dur).1.game_result = some "WIN"
        ∨ (green_light_state s now coin dur).1.game_result = some "LOSE")) := by
  unfold green_light_state
  dsimp only
  split_ifs
  · exact Or.inr ⟨rfl, Or.inr rfl⟩
  · exact Or.inr ⟨rfl, Or.inl rfl⟩
  · exact Or.inl ⟨by rw [start_random_light_game_result],
      fun hh => absurd hh (start_random_light_state_ne _ now coin dur)⟩
  · exact Or.inl ⟨rfl, fun hh => hh⟩

theorem red_light_state_go_cases (s : GameState) (now dur : Rat) (coin : Bool) :
    ((red_light_state s now coin dur).1.game_result = s.game_result
      ∧ ((red_light_state s now coin dur).1.state = "GAME_OVER" → s.state = "GAME_OVER"))
  ∨ ((red_light_state s now coin dur).1.state = "GAME_OVER"
      ∧ ((red_light_state s now coin dur).1.game_result = some "WIN"
        ∨ (red_light_state s now coin dur).1.game_result = some "LOSE")) := by
  unfold red_light_state
  dsimp only
  split_ifs
  · exact Or.inr ⟨rfl, Or.inr rfl⟩
  · exact Or.inr ⟨rfl, Or.inr rfl⟩
  · exact Or.inl ⟨by rw [start_random_light_game_result],
      fun hh => absurd hh (start_random_light_state_ne _ now coin dur)⟩
  · exact Or.inl ⟨rfl, fun hh => hh⟩

theorem main_loop_game_over_cases (s : GameState) (now dur : Rat) (coin : Bool) :
    ((main_loop s now coin dur).1.game_result = s.game_result
      ∧ ((main_loop s now coin dur).1.state = "GAME_OVER" → s.state = "GAME_OVER"))
  ∨ (s.state ≠ "GAME_OVER"
      ∧ (main_loop s now coin dur).1.state = "GAME_OVER"
      ∧ ((main_loop s now coin dur).1.game_result = some "WIN"
        ∨ (main_loop s now coin dur).1.game_result = some "LOSE")) := by
  unfold main_loop
  split_ifs with h1 h2 h3 h4 h5 h6
  · refine Or.inl ⟨rfl, fun hh => ?_⟩
    rw [show (instructions_state s).1.state = "COUNTDOWN" from rfl] at hh
    exact absurd hh (by decide)
  · refine Or.inl ⟨rfl, fun hh => ?_⟩
    rw [show (countdown_state s).1.state = "INIT" from rfl] at hh
    exact absurd hh (by decide)
  · refine Or.inl ⟨?_, fun hh => ?_⟩
    · rw [init_state_fst, start_random_light_game_result]
    · rw [init_state_fst] at hh
      exact absurd hh (start_random_light_state_ne _ now coin dur)
  · rcases green_light_state_go_cases s now dur coin with ⟨hres, himp⟩ | ⟨hgo, hres⟩
    · exact Or.inl ⟨hres, himp⟩
    · exact Or.inr ⟨by rw [h4]; decide, hgo, hres⟩
  · rcases red_light_state_go_cases s now dur coin with ⟨hres, himp⟩ | ⟨hgo, hres⟩
    · exact Or.inl ⟨hres, himp⟩
    · exact Or.inr ⟨by rw [h5]; decide, hgo, hres⟩
  · exact Or.inl ⟨rfl, fun hh => hh⟩
  · exact Or.inl ⟨rfl, fun hh => hh⟩

theorem applyEvent_result_inv (s : GameState) (e : Event)
    (h : s.state = "GAME_OVER" →
      s.game_result = some "WIN" ∨ s.game_result = some "LOSE") :
    (applyEvent s e).state = "GAME_OVER" →
      (applyEvent s e).game_result = some "WIN"
    ∨ (applyEvent s e).game_result = some "LOSE" := by
  cases e with
  | tick now coin dur =>
    unfold applyEvent
    dsimp only
    split_ifs with ht
    · rcases main_loop_game_over_cases s now dur coin with ⟨hres, himp⟩ | ⟨_, _, hres⟩
      · intro hh
        rw [hres]
        exact h (himp hh)
      · intro _
        exact hres
    · exact h
  | detect msg =>
    unfold applyEvent
    dsimp only
    intro hh
    rw [detection_callback_game_result]
    rw [detection_callback_state] at hh
    exact h hh

/-- C10: in every reachable state, phase `GAME_OVER` implies
`game_result` has been assigned (`WIN` or `LOSE`) — so `game_over_state`
never reads the attribute before its assignment; any event that changes
`game_result` is a transition into `GAME_OVER`; and every transition into
`GAME_OVER` leaves the result assigned. -/
theorem game_result_written_iff_game_over (s : GameState) :
    (Reachable s → s.state = "GAME_OVER" →
       s.game_result = some "WIN" ∨ s.game_result = some "LOSE")
  ∧ (∀ e : Event, (applyEvent s e).game_result ≠ s.game_result →
       s.state ≠ "GAME_OVER"
     ∧ (applyEvent s e).state = "GAME_OVER"
     ∧ ((applyEvent s e).game_result = some "WIN"
       ∨ (applyEvent s e).game_result = some "LOSE"))
  ∧ (∀ e : Event, s.state ≠ "GAME_OVER" →
       (applyEvent s e).state = "GAME_OVER" →
       ((applyEvent s e).game_result = some "WIN"
       ∨ (applyEvent s e).game_result = some "LOSE")) := by
  refine ⟨?_, ?_, ?_⟩
  · rintro ⟨es, rfl⟩
    have hrun : ∀ (es : List Event) (t : GameState),
        (t.state = "GAME_OVER" →
          t.game_result = some "WIN" ∨ t.game_result = some "LOSE") →
        ((run t es).state = "GAME_OVER" →
          (run t es).game_result = some "WIN"
        ∨ (run t es).game_result = some "LOSE") := by
      intro es
      induction es with
      | nil => exact fun t ht => ht
      | cons e es ih => exact fun t ht => ih _ (applyEvent_result_inv t e ht)
    exact hrun es initState (fun hh => absurd hh (by decide))
  · intro e hchange
    cases e with
    | tick now coin dur =>
      unfold applyEvent at hchange ⊢
      dsimp only at hchange ⊢
      split_ifs at hchange ⊢ with ht
      · rcases main_loop_game_over_cases s now dur coin with ⟨hres, _⟩ | ⟨hne, hgo, hres⟩
        · exact absurd hres hchange
        · exact ⟨hne, hgo, hres⟩
      · exact absurd rfl hchange
    | detect msg =>
      unfold applyEvent at hchange ⊢
      dsimp only at hchange ⊢
      exact absurd (detection_callback_game_result s msg) hchange
  · intro e hne hgo
    cases e with
    | tick now coin dur =>
      unfold applyEvent at hgo ⊢
      dsimp only at hgo ⊢
      split_ifs at hgo ⊢ with ht
      · rcases main_loop_game_over_cases s now dur coin with ⟨_, himp⟩ | ⟨_, _, hres⟩
        · exact absurd (himp hgo) hne
        · exact hres
      · exact absurd hgo hne
    | detect msg =>
      unfold applyEvent at hgo ⊢
      dsimp only at hgo ⊢
      rw [detection_callback_state] at hgo
      exact absurd hgo hne

unseal Rat.add Rat.sub in
/-- Witness for C10: a concrete reachable `GAME_OVER` state (red-light
timeout) has its result assigned. -/
theorem game_result_written_iff_game_over_witness :
    (run initState demoEvents).game_result = some "WIN"
  ∨ (run initState demoEvents).game_result = some "LOSE" :=
  (game_result_written_iff_game_over (run initState demoEvents)).1
    ⟨demoEvents, rfl⟩ (by decide)
